import Mathlib

/-!
Shallow embedding of the behavioral core of the OpenUnrealCodingStandard
sample module (`Source/OUUCodingStandard`): the awesomeness classifier,
the `LexToString` / `TryLexFromString` string conversion pair, the
`FNumericAwesomeness` value struct with its score-only comparison
operators, and the relevant parts of `AOUUExampleCharacter`
(`SetAwesomeness` with its change notification, and `ColorBodyPart`).

Modeling choices:
- Unreal `int32` scores and thresholds are modeled as `Int`; the code only
  compares them (no arithmetic), so no wraparound modeling is needed.
- `FString` / `FName` are modeled as `String`.
- The console variable `CVar_MinAwesomeness` (default 100) is process-wide
  mutable state read by `AwesomenessLevelFromIntValue` on each call via
  `GetValueOnAnyThread`. It is modeled as an explicit `MinAwesomeness`
  parameter threaded through the functions that read it, together with a
  tiny console-state type whose setter models runtime reconfiguration.
- `EAwesomenessLevel` is a C++ scoped enum; any underlying integer can be
  cast into it, so `LexToString`, whose `switch` has a `default` branch for
  out-of-range values, is embedded over the underlying integer
  representation (`Int`), with `EAwesomenessLevel.toInt` giving the codes
  of the declared enumerators (declaration order, starting at 0).
- `TryLexFromString` takes its output by reference and returns a success
  `bool`; it is embedded as a function from the prior value of the output
  parameter and the input string to the (success flag, final output value)
  pair.
- `checkf` in `ColorBodyPart` crashes the process when its condition fails,
  so `ColorBodyPart` is embedded returning an `Option`: `none` models the
  `checkf` crash, `some` carries (new character state, return value).
-/

namespace OUU.CodingStandard

/-- `EAwesomenessLevel` from `OUUCodingStandard.h` (lines 168-176):
`NotAwesome`, `SemiAwesome`, `Awesome`, plus the `NumOf` sentinel. -/
inductive EAwesomenessLevel where
  | NotAwesome
  | SemiAwesome
  | Awesome
  | NumOf
  deriving DecidableEq, Repr

/-- Underlying integer value of each declared enumerator
(declaration order, first enumerator 0, as in C++). -/
def EAwesomenessLevel.toInt : EAwesomenessLevel → Int
  | .NotAwesome => 0
  | .SemiAwesome => 1
  | .Awesome => 2
  | .NumOf => 3

/-- Default value of the console variable
`ouu.CodingStandard.MinAwesomeness` (`CVar_MinAwesomeness`,
`OUUCodingStandard.cpp` lines 48-51): 100. -/
def CVar_MinAwesomeness_default : Int := 100

/-- The mutable process-wide console-variable state: the current value of
`CVar_MinAwesomeness`. -/
structure FConsoleState where
  MinAwesomeness : Int
  deriving DecidableEq, Repr

/-- The console state at process start: the cvar holds its default. -/
def FConsoleState.initial : FConsoleState :=
  { MinAwesomeness := CVar_MinAwesomeness_default }

/-- Runtime reconfiguration of the cvar (e.g. via console command): replaces
the stored threshold; no validation is performed. -/
def FConsoleState.setMinAwesomeness (s : FConsoleState) (v : Int) : FConsoleState :=
  { s with MinAwesomeness := v }

/-- `OUU::CodingStandard::AwesomenessLevelFromIntValue`
(`OUUCodingStandard.cpp` lines 253-266). The first parameter models the
value the function reads from `CVar_MinAwesomeness.GetValueOnAnyThread()`
at the moment of the call. -/
def AwesomenessLevelFromIntValue (MinAwesomeness Awesomeness : Int) : EAwesomenessLevel :=
  if Awesomeness < 0 then
    EAwesomenessLevel.NotAwesome
  else if Awesomeness < MinAwesomeness then
    EAwesomenessLevel.SemiAwesome
  else
    EAwesomenessLevel.Awesome

/-- `OUU::CodingStandard::LexToString` (`OUUCodingStandard.cpp` lines
269-285), embedded over the underlying integer of the enum argument: the
`switch` matches the three declared level enumerators and maps every other
value (including the `NumOf` sentinel, code 3) to `"<invalid>"` in its
`default` branch. -/
def LexToString (AwesomenessLevel : Int) : String :=
  if AwesomenessLevel = EAwesomenessLevel.NotAwesome.toInt then "NotAwesome"
  else if AwesomenessLevel = EAwesomenessLevel.SemiAwesome.toInt then "SemiAwesome"
  else if AwesomenessLevel = EAwesomenessLevel.Awesome.toInt then "Awesome"
  else "<invalid>"

/-- `OUU::CodingStandard::TryLexFromString` (`OUUCodingStandard.cpp` line
288): `bool TryLexFromString(EAwesomenessLevel& OutAwesomenessLevel, const
FString& String) \x7b return false; \x7d`. The first argument is the value
held in `OutAwesomenessLevel` by the caller before the call; the result pair
is (returned success flag, value of `OutAwesomenessLevel` after the call).
The body returns `false` without touching the output parameter. -/
def TryLexFromString (OutAwesomenessLevel : EAwesomenessLevel) (String : String) :
    Bool × EAwesomenessLevel :=
  (false, OutAwesomenessLevel)

/-- `OUU::CodingStandard::FNumericAwesomeness` (`OUUCodingStandard.h` lines
197-233): `AwesomenessReason : FString` (default `TEXT("")`) and the
private `Awesomeness : int32` (default 0). -/
structure FNumericAwesomeness where
  AwesomenessReason : String := ""
  Awesomeness : Int := 0
  deriving DecidableEq, Repr

namespace FNumericAwesomeness

/-- The two-argument constructor
`FNumericAwesomeness(int32 InAwesomeness, const FString& InAwesomenessReason)`
(`OUUCodingStandard.h` lines 204-207). -/
def fromScoreAndReason (InAwesomeness : Int) (InAwesomenessReason : String) :
    FNumericAwesomeness :=
  { AwesomenessReason := InAwesomenessReason, Awesomeness := InAwesomeness }

/-- The single-argument constructor `explicit FNumericAwesomeness(int32
InAwesomeness)` (`OUUCodingStandard.h` lines 212-214), which delegates to
the two-argument constructor with `TEXT("unknown reason")`. -/
def fromScore (InAwesomeness : Int) : FNumericAwesomeness :=
  fromScoreAndReason InAwesomeness "unknown reason"

/-- `operator==(const FNumericAwesomeness& LHS, const FNumericAwesomeness&
RHS)` (`OUUCodingStandard.h` lines 242-245): compares `Awesomeness` only. -/
def beq (LHS RHS : FNumericAwesomeness) : Bool :=
  LHS.Awesomeness == RHS.Awesomeness

/-- `operator<(const FNumericAwesomeness& LHS, const FNumericAwesomeness&
RHS)` (`OUUCodingStandard.h` lines 247-250): compares `Awesomeness` only. -/
def lt (LHS RHS : FNumericAwesomeness) : Bool :=
  decide (LHS.Awesomeness < RHS.Awesomeness)

/-- `FNumericAwesomeness::GetAwesomenessLevel` (`OUUCodingStandard.h`
lines 237-240): delegates to `AwesomenessLevelFromIntValue(Awesomeness)`;
the threshold parameter models the cvar read inside that call. -/
def GetAwesomenessLevel (self : FNumericAwesomeness) (MinAwesomeness : Int) :
    EAwesomenessLevel :=
  AwesomenessLevelFromIntValue MinAwesomeness self.Awesomeness

end FNumericAwesomeness

end OUU.CodingStandard

/-- `EOUUExampleBodyPartColor` (`OUUCodingStandard.h` lines 106-118):
`Red`, `Green`, `Blue`, plus the hidden `Count` sentinel. -/
inductive EOUUExampleBodyPartColor where
  | Red
  | Green
  | Blue
  | Count
  deriving DecidableEq, Repr

/-- The mutable state of `AOUUExampleCharacter` relevant to the embedded
methods (`OUUCodingStandard.h` lines 370-377): `HeadColor`, `TorsoColor`
(both default `Red`), `bWasColorChanged` (default `false`) and
`CharacterData` (a default-constructed `FNumericAwesomeness`). -/
structure AOUUExampleCharacter where
  HeadColor : EOUUExampleBodyPartColor := EOUUExampleBodyPartColor.Red
  TorsoColor : EOUUExampleBodyPartColor := EOUUExampleBodyPartColor.Red
  bWasColorChanged : Bool := false
  CharacterData : OUU.CodingStandard.FNumericAwesomeness := {}
  deriving DecidableEq, Repr

namespace AOUUExampleCharacter

/-- `AOUUExampleCharacter::SetAwesomeness` (`OUUCodingStandard.cpp` lines
323-335): reads the level before, replaces `CharacterData` with
`FCharacterData(Awesomeness, TEXT("set by SetAwesomeness"))`, and
broadcasts `OnAwesomenessChanged` iff the new level differs from the level
before. Result: (new character state, whether the delegate was broadcast).
`MinAwesomeness` models the cvar value read by the two
`GetAwesomenessLevel` calls inside this call. -/
def SetAwesomeness (MinAwesomeness : Int) (self : AOUUExampleCharacter)
    (Awesomeness : Int) : AOUUExampleCharacter × Bool :=
  let AwesomenessLevelBefore := self.CharacterData.GetAwesomenessLevel MinAwesomeness
  let NewCharacterData :=
    OUU.CodingStandard.FNumericAwesomeness.fromScoreAndReason Awesomeness
      "set by SetAwesomeness"
  let NewAwesomenessLevel := NewCharacterData.GetAwesomenessLevel MinAwesomeness
  ({ self with CharacterData := NewCharacterData },
    NewAwesomenessLevel != AwesomenessLevelBefore)

end AOUUExampleCharacter

/-! ## Theorems about the embedded code -/

open OUU.CodingStandard

/-- Claim C1: for every threshold value `T` and every non-negative score
`s`, `AwesomenessLevelFromIntValue` returns `SemiAwesome` when `s < T` and
`Awesome` when `s >= T`; in particular the comparison is strict, so a score
exactly equal to the threshold classifies as `Awesome`. -/
theorem classify_nonneg_threshold_split (T s : Int) (h : 0 ≤ s) :
    (s < T → AwesomenessLevelFromIntValue T s = EAwesomenessLevel.SemiAwesome) ∧
    (T ≤ s → AwesomenessLevelFromIntValue T s = EAwesomenessLevel.Awesome) := by
  refine ⟨fun hlt => ?_, fun hge => ?_⟩ <;>
    simp only [AwesomenessLevelFromIntValue] <;>
    split_ifs with h1 h2 <;> first | rfl | omega

/-- Witness for claim C1 at the boundary: threshold 100, score 100
(equal to the threshold) classifies as `Awesome`, and score 99 as
`SemiAwesome`. -/
theorem classify_nonneg_threshold_split_witness :
    0 ≤ (100 : Int) ∧ 0 ≤ (99 : Int) ∧
    AwesomenessLevelFromIntValue 100 100 = EAwesomenessLevel.Awesome ∧
    AwesomenessLevelFromIntValue 100 99 = EAwesomenessLevel.SemiAwesome :=
  ⟨by decide, by decide,
    (classify_nonneg_threshold_split 100 100 (by decide)).2 (by decide),
    (classify_nonneg_threshold_split 100 99 (by decide)).1 (by decide)⟩

/-- Claim C2: for every negative score `s` and every threshold value `T`
(including negative thresholds), `AwesomenessLevelFromIntValue` returns
`NotAwesome`: the negativity check runs first and short-circuits the
threshold comparison. -/
theorem classify_negative_notawesome (T s : Int) (h : s < 0) :
    AwesomenessLevelFromIntValue T s = EAwesomenessLevel.NotAwesome := by
  simp [AwesomenessLevelFromIntValue, h]

/-- Witness for claim C2 at the example from the spec: threshold -5 and
score -1 still classify as `NotAwesome`. -/
theorem classify_negative_notawesome_witness :
    (-1 : Int) < 0 ∧
    AwesomenessLevelFromIntValue (-5) (-1) = EAwesomenessLevel.NotAwesome :=
  ⟨by decide, classify_negative_notawesome (-5) (-1) (by decide)⟩

/-- Claim C3: for every input string and every prior output value,
`TryLexFromString` returns the failure flag `false`; it never signals
success (and, being a total Lean function, never raises an exception). -/
theorem trylexfromstring_always_fails (out : EAwesomenessLevel) (s : String) :
    (TryLexFromString out s).1 = false :=
  rfl

/-- Claim C4: two `FNumericAwesomeness` instances with equal score and any
(possibly differing) reason strings compare equal under `operator==`, and
neither is less than the other under `operator<`: comparison depends on
the score field only. -/
theorem fnumericawesomeness_compare_ignores_reason
    (score : Int) (reasonA reasonB : String) :
    FNumericAwesomeness.beq ⟨reasonA, score⟩ ⟨reasonB, score⟩ = true ∧
    FNumericAwesomeness.lt ⟨reasonA, score⟩ ⟨reasonB, score⟩ = false ∧
    FNumericAwesomeness.lt ⟨reasonB, score⟩ ⟨reasonA, score⟩ = false := by
  simp [FNumericAwesomeness.beq, FNumericAwesomeness.lt]

/-- Claim C5: the classifier reads the current threshold on every call
rather than caching it: after setting the cvar to 50, score 60 classifies
as `Awesome`; after then setting the cvar to 1000, the same score 60
classifies as `SemiAwesome`. -/
theorem classify_reads_threshold_each_call :
    AwesomenessLevelFromIntValue
        (FConsoleState.initial.setMinAwesomeness 50).MinAwesomeness 60 =
      EAwesomenessLevel.Awesome ∧
    AwesomenessLevelFromIntValue
        ((FConsoleState.initial.setMinAwesomeness 50).setMinAwesomeness
          1000).MinAwesomeness 60 =
      EAwesomenessLevel.SemiAwesome := by
  decide

/-- Claim C6: `LexToString` maps `NotAwesome` to `"NotAwesome"`,
`SemiAwesome` to `"SemiAwesome"`, `Awesome` to `"Awesome"`, and every
other enum value (out-of-range or the `NumOf` sentinel) to the literal
`"<invalid>"`, never failing. -/
theorem lextostring_spec (v : Int) :
    LexToString EAwesomenessLevel.NotAwesome.toInt = "NotAwesome" ∧
    LexToString EAwesomenessLevel.SemiAwesome.toInt = "SemiAwesome" ∧
    LexToString EAwesomenessLevel.Awesome.toInt = "Awesome" ∧
    LexToString EAwesomenessLevel.NumOf.toInt = "<invalid>" ∧
    (v ≠ EAwesomenessLevel.NotAwesome.toInt →
      v ≠ EAwesomenessLevel.SemiAwesome.toInt →
      v ≠ EAwesomenessLevel.Awesome.toInt →
      LexToString v = "<invalid>") := by
  refine ⟨rfl, rfl, rfl, rfl, fun h0 h1 h2 => ?_⟩
  simp only [LexToString, EAwesomenessLevel.toInt] at h0 h1 h2 ⊢
  simp [h0, h1, h2]

/-- Witness for claim C6 at the out-of-range enum value 7. -/
theorem lextostring_spec_witness :
    (7 : Int) ≠ EAwesomenessLevel.NotAwesome.toInt ∧
    (7 : Int) ≠ EAwesomenessLevel.SemiAwesome.toInt ∧
    (7 : Int) ≠ EAwesomenessLevel.Awesome.toInt ∧
    LexToString 7 = "<invalid>" :=
  ⟨by decide, by decide, by decide,
    (lextostring_spec 7).2.2.2.2 (by decide) (by decide) (by decide)⟩

/-- Claim C7: for every score `s`, the single-argument constructor of
`FNumericAwesomeness` yields an instance whose reason string equals
`"unknown reason"`. -/
theorem fnumericawesomeness_fromscore_default_reason (s : Int) :
    (FNumericAwesomeness.fromScore s).AwesomenessReason = "unknown reason" :=
  rfl

/-- Claim C8: for every prior character state and every new score,
`SetAwesomeness` broadcasts `OnAwesomenessChanged` if and only if the
awesomeness level computed from the new score differs from the level
before the call. -/
theorem setawesomeness_broadcast_iff_level_change
    (T : Int) (ch : AOUUExampleCharacter) (a : Int) :
    (ch.SetAwesomeness T a).2 = true ↔
      AwesomenessLevelFromIntValue T a ≠
        ch.CharacterData.GetAwesomenessLevel T := by
  simp [AOUUExampleCharacter.SetAwesomeness,
    OUU.CodingStandard.FNumericAwesomeness.GetAwesomenessLevel,
    OUU.CodingStandard.FNumericAwesomeness.fromScoreAndReason, bne_iff_ne]

/-- Claim C9: for every input string and every initial value of the output
parameter, `TryLexFromString` leaves the output parameter exactly as it
was before the call: its failure path writes nothing. -/
theorem trylexfromstring_out_unchanged (out : EAwesomenessLevel) (s : String) :
    (TryLexFromString out s).2 = out :=
  rfl

